import Mathlib

/-!
Verification of the coco timing/profiling toolkit (src/coco.h).

The development shallowly embeds the four stateful components the spec
describes: the elapsed timer (`timer`), the trace emitter (`instrumentor`
over a model of `std::ofstream`), the statistics aggregator
(`timer_statistics` functions over a list of samples), and the named timer
registry (`multiple_timer_manager`).  Wall-clock time is passed explicitly:
each operation that reads the clock takes the current tick count (already
cast to the timer's duration unit, as `tp_cast` does in the source) as an
`Int` argument.
-/

/-- State of `coco::timer` (src/coco.h lines 164-280): the five data members.
`m_timepoint` holds the tick count recorded at the start of the current
interval (the source stores a `time_point` and casts at use; we store the
cast value). -/
structure timer where
  m_timepoint : Int
  m_time : Int
  m_stopped : Bool
  m_paused : Bool
  m_print_when_stopped : Bool
deriving DecidableEq, Repr

/-- The member-initializer state of `coco::timer`: `m_time = 0`,
`m_stopped = true`, `m_paused = false`, `m_print_when_stopped = true`,
default-constructed (epoch) timepoint. -/
def timer.default_state : timer :=
  { m_timepoint := 0, m_time := 0, m_stopped := true, m_paused := false,
    m_print_when_stopped := true }

/-- `timer::start` (lines 178-187): only acts when stopped. -/
def timer.start (t : timer) (now : Int) : timer :=
  if t.m_stopped then
    { t with m_time := 0, m_paused := false, m_stopped := false, m_timepoint := now }
  else t

/-- The constructor `timer(name)` (lines 168-171): member initializers, then
`start()`. -/
def timer.init (now : Int) : timer :=
  timer.default_state.start now

/-- `timer::pause` (lines 189-198): when not paused, adds `now - m_timepoint`
to `m_time` and sets the paused flag.  Note the source does not test
`m_stopped` here. -/
def timer.pause (t : timer) (now : Int) : timer :=
  if !t.m_paused then
    { t with m_paused := true, m_time := t.m_time + (now - t.m_timepoint) }
  else t

/-- `timer::resume` (lines 200-207): when paused, clears the flag and records
a fresh interval start. -/
def timer.resume (t : timer) (now : Int) : timer :=
  if t.m_paused then
    { t with m_paused := false, m_timepoint := now }
  else t

/-- `timer::reset` (lines 209-215): unconditional return to the initial
running state. -/
def timer.reset (t : timer) (now : Int) : timer :=
  { t with m_time := 0, m_paused := false, m_stopped := false, m_timepoint := now }

/-- `timer::stop` (lines 217-229): when not stopped, sets the stopped flag and
adds `now - m_timepoint` to `m_time`.  Note the source does not test
`m_paused` here.  (The optional console print does not change the state.) -/
def timer.stop (t : timer) (now : Int) : timer :=
  if !t.m_stopped then
    { t with m_stopped := true, m_time := t.m_time + (now - t.m_timepoint) }
  else t

/-- `timer::complated_on_time` (lines 231-236). -/
def timer.complated_on_time (t : timer) (time : Int) : Bool :=
  if !t.m_stopped then false
  else decide (time ≥ t.m_time)

/-- `timer::is_running` (lines 238-241). -/
def timer.is_running (t : timer) : Bool :=
  !t.m_stopped

/-- `timer::is_paused` (lines 243-246). -/
def timer.is_paused (t : timer) : Bool :=
  t.m_paused

/-- `timer::get_time` (lines 258-261). -/
def timer.get_time (t : timer) : Int :=
  t.m_time

/-- One clock-stamped call on a `timer`. -/
inductive timer_op where
  | start (now : Int)
  | pause (now : Int)
  | resume (now : Int)
  | reset (now : Int)
  | stop (now : Int)
deriving DecidableEq, Repr

/-- Dispatch one call to the corresponding member function. -/
def timer.apply (t : timer) : timer_op → timer
  | timer_op.start now => t.start now
  | timer_op.pause now => t.pause now
  | timer_op.resume now => t.resume now
  | timer_op.reset now => t.reset now
  | timer_op.stop now => t.stop now

/-- Run a sequence of calls, oldest first. -/
def timer.run (t : timer) (ops : List timer_op) : timer :=
  ops.foldl timer.apply t

/-- Reference state for the spec's accumulated-time property: running flag,
paused flag, start of the current running-not-paused interval, and the sum of
the wall-clock durations of the completed running-not-paused intervals. -/
structure spec_timer_state where
  running : Bool
  paused : Bool
  interval_start : Int
  acc : Int
deriving DecidableEq, Repr

/-- Reference semantics written from the spec's words (spec sections 4.1 and
8): accumulated time is the sum of wall-clock durations of exactly the
intervals during which the timer was running and not paused; guarded calls
are no-ops; time elapsed while paused contributes nothing. -/
def spec_timer_step (s : spec_timer_state) : timer_op → spec_timer_state
  | timer_op.start now =>
      if s.running then s
      else { running := true, paused := false, interval_start := now, acc := 0 }
  | timer_op.pause now =>
      if s.running && !s.paused then
        { s with paused := true, acc := s.acc + (now - s.interval_start) }
      else s
  | timer_op.resume now =>
      if s.running && s.paused then
        { s with paused := false, interval_start := now }
      else s
  | timer_op.reset now =>
      { running := true, paused := false, interval_start := now, acc := 0 }
  | timer_op.stop now =>
      if s.running then
        if s.paused then { s with running := false }
        else { s with running := false, acc := s.acc + (now - s.interval_start) }
      else s

/-- Run the reference semantics over a call sequence. -/
def spec_timer_run (s : spec_timer_state) (ops : List timer_op) : spec_timer_state :=
  ops.foldl spec_timer_step s

/-- The reference state right after construction at tick `now`. -/
def spec_timer_init (now : Int) : spec_timer_state :=
  { running := true, paused := false, interval_start := now, acc := 0 }

/-- C1: the claim fails on the code.  A timer constructed (started) at tick 0,
paused at tick 1 and stopped at tick 3 obeys every flag guard, ran unpaused
only during [0,1] (spec accumulated time 1), yet the code reports 4:
`pause` adds 1, then `stop` — which does not test `m_paused` — adds the whole
span `3 - 0` again, so the paused interval [1,3] contributes and [0,1] is
double-counted. -/
theorem c1_pause_then_stop_overcounts :
    ((timer.init 0).run [timer_op.pause 1, timer_op.stop 3]).get_time = 4
    ∧ (spec_timer_run (spec_timer_init 0) [timer_op.pause 1, timer_op.stop 3]).acc = 1
    ∧ ((timer.init 0).run [timer_op.pause 1, timer_op.stop 3]).get_time ≠
        (spec_timer_run (spec_timer_init 0) [timer_op.pause 1, timer_op.stop 3]).acc := by
  decide

/-- C2: the claim fails on the code.  A timer constructed at tick 0 and
stopped at tick 2 has accumulated time 2 and is stopped; calling `pause` on it
at tick 5 — `pause` does not test `m_stopped` — raises the accumulated time
to 7, so an operation on a stopped timer increases the accumulated time. -/
theorem c2_pause_on_stopped_increases_time :
    ((timer.init 0).stop 2).m_stopped = true
    ∧ ((timer.init 0).stop 2).get_time = 2
    ∧ (((timer.init 0).stop 2).pause 5).get_time = 7
    ∧ (((timer.init 0).stop 2).pause 5).get_time > ((timer.init 0).stop 2).get_time := by
  decide

/-- C5: `complated_on_time t` returns `false` whenever the timer is not
stopped, and once stopped returns `true` iff `t ≥ accumulated_time`. -/
theorem c5_complated_on_time_spec (t : timer) (x : Int) :
    (t.m_stopped = false → t.complated_on_time x = false)
    ∧ (t.m_stopped = true → (t.complated_on_time x = true ↔ x ≥ t.get_time)) := by
  constructor
  · intro h
    simp [timer.complated_on_time, h]
  · intro h
    simp [timer.complated_on_time, h, timer.get_time]

/-- Witness for C5 at concrete timers: a freshly started timer (not stopped)
and a timer stopped with accumulated time 3, threshold 5. -/
theorem c5_complated_on_time_witness :
    ((timer.init 0).complated_on_time 5 = false)
    ∧ (((timer.init 0).stop 3).complated_on_time 5 = true ↔
        (5 : Int) ≥ ((timer.init 0).stop 3).get_time) :=
  ⟨(c5_complated_on_time_spec (timer.init 0) 5).1 (by decide),
   (c5_complated_on_time_spec ((timer.init 0).stop 3) 5).2 (by decide)⟩

/-- `timer_statistics::calculate_average` (src/coco.h lines 361-367): 0.0 on
an empty sample set, else sum divided by count.  The `double` results of the
statistics functions are modelled exactly, as rationals. -/
def calculate_average (m_measurements : List Int) : ℚ :=
  if m_measurements.isEmpty then 0
  else (m_measurements.sum : ℚ) / m_measurements.length

/-- `timer_statistics::calculate_variance` (lines 369-380): population
variance, `Σ (x - mean)² / N`, 0.0 on an empty set. -/
def calculate_variance (m_measurements : List Int) : ℚ :=
  if m_measurements.isEmpty then 0
  else (m_measurements.map
      (fun time => ((time : ℚ) - calculate_average m_measurements) ^ 2)).sum
    / m_measurements.length

/-- `timer_statistics::calculate_standard_deviation` (lines 382-385):
square root of the variance. -/
noncomputable def calculate_standard_deviation (m_measurements : List Int) : ℝ :=
  Real.sqrt (calculate_variance m_measurements)

/-- `timer_statistics::calculate_median` (lines 387-398): sort a copy of the
samples; even count averages the two central elements, odd count takes the
central one; 0.0 on an empty set.  `getD` with default 0 models the in-bounds
`operator[]` accesses. -/
def calculate_median (m_measurements : List Int) : ℚ :=
  if m_measurements.isEmpty then 0
  else
    let sorted_measurements := m_measurements.mergeSort (fun a b => a ≤ b)
    let n := sorted_measurements.length
    if n % 2 = 0 then
      ((sorted_measurements.getD (n / 2 - 1) 0 : ℚ)
        + (sorted_measurements.getD (n / 2) 0 : ℚ)) / 2
    else (sorted_measurements.getD (n / 2) 0 : ℚ)

/-- `timer_statistics::get_min_value` (lines 400-405): linear scan via
`std::min_element`, 0 on an empty set. -/
def get_min_value (m_measurements : List Int) : Int :=
  match m_measurements with
  | [] => 0
  | x :: xs => xs.foldl min x

/-- `timer_statistics::get_max_value` (lines 407-412): linear scan via
`std::max_element`, 0 on an empty set. -/
def get_max_value (m_measurements : List Int) : Int :=
  match m_measurements with
  | [] => 0
  | x :: xs => xs.foldl max x

/-- C7: on the empty sample set every aggregate query returns zero. -/
theorem c7_empty_statistics :
    calculate_average [] = 0
    ∧ calculate_variance [] = 0
    ∧ calculate_standard_deviation [] = 0
    ∧ calculate_median [] = 0
    ∧ get_min_value [] = 0
    ∧ get_max_value [] = 0 := by
  refine ⟨rfl, rfl, ?_, rfl, rfl, rfl⟩
  simp [calculate_standard_deviation, calculate_variance, Real.sqrt_zero]

/-- C8: on a non-empty sample set the median is computed from the sorted copy
of the samples — stated against any sorted permutation `s` of the input (the
sorted copy is unique): even count averages the two central elements, odd
count takes the central element.  The input list itself is not changed (the
embedding is functional by construction). -/
theorem c8_median_of_sorted_copy (l s : List Int) (hne : l ≠ []) (hp : l.Perm s)
    (hs : List.Sorted (· ≤ ·) s) :
    calculate_median l =
      if s.length % 2 = 0 then
        ((s.getD (s.length / 2 - 1) 0 : ℚ) + (s.getD (s.length / 2) 0 : ℚ)) / 2
      else (s.getD (s.length / 2) 0 : ℚ) := by
  have hsort : l.mergeSort (fun a b => a ≤ b) = s :=
    List.eq_of_perm_of_sorted ((List.mergeSort_perm l _).trans hp)
      (List.sorted_mergeSort' l) hs
  simp only [calculate_median, hsort]
  simp [hne]

/-- Witness for C8 at the spec's example: the median of [1,2,3,4] is 5/2. -/
theorem c8_median_witness : calculate_median [1, 2, 3, 4] = 5 / 2 := by
  have h := c8_median_of_sorted_copy [1, 2, 3, 4] [1, 2, 3, 4] (by decide)
    (List.Perm.refl _) (by decide)
  rw [h]
  norm_num

/-- State of `coco::multiple_timer_manager` (src/coco.h lines 490-591) as far
as the mapping is concerned: the name-to-timer map `m_timers`.  Absent names
map to `none`; a present name maps to the state of the owned timer object.
(The shared data logger does not bear on the mapping claims.) -/
structure multiple_timer_manager where
  m_timers : String → Option timer

/-- `multiple_timer_manager::get_timer` (lines 553-558); the `COCO_ASSERT` on
an absent name is modelled as the `none` result. -/
def multiple_timer_manager.get_timer (m : multiple_timer_manager)
    (timer_name : String) : Option timer :=
  m.m_timers timer_name

/-- `multiple_timer_manager::is_timer_running` (lines 565-570): for a present
name, the negation of the timer's `is_running()`; `false` for an absent
name. -/
def multiple_timer_manager.is_timer_running (m : multiple_timer_manager)
    (timer_name : String) : Bool :=
  match m.m_timers timer_name with
  | some t => !t.is_running
  | none => false

/-- `multiple_timer_manager::rename_timer` (lines 578-586): asserts that
`new_name` is absent, then that `old_name` is present (both assertion
failures modelled as `none`); on success moves the owned timer to the new
key and erases the old one. -/
def multiple_timer_manager.rename_timer (m : multiple_timer_manager)
    (old_name new_name : String) : Option multiple_timer_manager :=
  if (m.m_timers new_name).isSome then none
  else
    match m.m_timers old_name with
    | none => none
    | some t => some ⟨fun k =>
        if k = new_name then some t
        else if k = old_name then none
        else m.m_timers k⟩

/-- C4: `rename_timer old new` fails iff `old` is absent or `new` is present;
on success the new name is bound to exactly the timer state `old` had,
`old` is gone, and every other entry is unchanged. -/
theorem c4_rename_timer_spec (m : multiple_timer_manager)
    (old_name new_name : String) (t : timer) :
    ((m.m_timers old_name = none ∨ (m.m_timers new_name).isSome = true) →
        m.rename_timer old_name new_name = none)
    ∧ (m.m_timers old_name = some t → m.m_timers new_name = none →
        ∃ m', m.rename_timer old_name new_name = some m'
          ∧ m'.get_timer new_name = some t
          ∧ m'.get_timer old_name = none
          ∧ ∀ k, k ≠ old_name → k ≠ new_name → m'.m_timers k = m.m_timers k) := by
  constructor
  · rintro (h | h)
    · unfold multiple_timer_manager.rename_timer
      cases hsome : (m.m_timers new_name).isSome
      · simp [hsome, h]
      · simp [hsome]
    · unfold multiple_timer_manager.rename_timer
      simp [h]
  · intro hold hnew
    have hne : old_name ≠ new_name := by
      intro he
      rw [he, hnew] at hold
      exact Option.noConfusion hold
    refine ⟨⟨fun k =>
        if k = new_name then some t
        else if k = old_name then none
        else m.m_timers k⟩, ?_, ?_, ?_, ?_⟩
    · unfold multiple_timer_manager.rename_timer
      simp [hnew, hold]
    · simp [multiple_timer_manager.get_timer]
    · simp [multiple_timer_manager.get_timer, hne]
    · intro k hko hkn
      simp [hko, hkn]

/-- A concrete registry with one entry: "a" bound to a timer started at tick 0
and stopped at tick 2. -/
def mgr0 : multiple_timer_manager :=
  ⟨fun k => if k = "a" then some ((timer.init 0).stop 2) else none⟩

/-- Witness for C4 at the concrete registry `mgr0`: renaming "a" to "b". -/
theorem c4_rename_timer_witness :
    ∃ m', mgr0.rename_timer "a" "b" = some m'
      ∧ m'.get_timer "b" = some ((timer.init 0).stop 2)
      ∧ m'.get_timer "a" = none
      ∧ ∀ k, k ≠ "a" → k ≠ "b" → m'.m_timers k = mgr0.m_timers k :=
  (c4_rename_timer_spec mgr0 "a" "b" ((timer.init 0).stop 2)).2 (by rfl) (by rfl)

/-- C9: `is_timer_running name` is `true` iff `name` is present and its timer
is stopped (the negation of the timer's `is_running()`); an absent name gives
`false` rather than a failure. -/
theorem c9_is_timer_running_spec (m : multiple_timer_manager)
    (timer_name : String) :
    (m.is_timer_running timer_name = true ↔
      ∃ t, m.m_timers timer_name = some t ∧ t.m_stopped = true)
    ∧ (m.m_timers timer_name = none → m.is_timer_running timer_name = false) := by
  constructor
  · unfold multiple_timer_manager.is_timer_running
    cases h : m.m_timers timer_name with
    | none => simp
    | some t => simp [timer.is_running]
  · intro h
    unfold multiple_timer_manager.is_timer_running
    simp [h]

/-- Witness for C9 on `mgr0`: the stopped timer "a" makes `is_timer_running`
true, and the absent name "missing" gives `false`. -/
theorem c9_is_timer_running_witness :
    (mgr0.is_timer_running "a" = true ↔
      ∃ t, mgr0.m_timers "a" = some t ∧ t.m_stopped = true)
    ∧ mgr0.is_timer_running "missing" = false :=
  ⟨(c9_is_timer_running_spec mgr0 "a").1,
   (c9_is_timer_running_spec mgr0 "missing").2 (by rfl)⟩

/-- Content model of the `std::ofstream` member: open flag, error (fail/bad)
flag, and the bytes written to the currently open file.  `open` on an already
open stream fails (C++ sets `failbit`); a successful open truncates the file
and clears the error state; writes on a closed or failed stream are dropped
and set the error flag; `close` keeps the written content (the file on
disk). -/
structure ofstream where
  is_open : Bool
  fail : Bool
  content : List Char
deriving DecidableEq, Repr

/-- `std::ofstream::open`. -/
def ofstream.open_file (f : ofstream) : ofstream :=
  if f.is_open then { f with fail := true }
  else { is_open := true, fail := false, content := [] }

/-- `operator<<` / `write` on the stream. -/
def ofstream.write (f : ofstream) (s : List Char) : ofstream :=
  if f.is_open && !f.fail then { f with content := f.content ++ s }
  else { f with fail := true }

/-- `std::ofstream::close`. -/
def ofstream.close (f : ofstream) : ofstream :=
  { f with is_open := false }

/-- `coco::detail::profile_result` (src/coco.h lines 84-89); `end_` stands for
the `end` member (a Lean keyword). -/
structure profile_result where
  name : List Char
  start : Int
  end_ : Int
  threadID : Nat
deriving DecidableEq, Repr

/-- The name sanitization of `instrumentor::write_profile` (line 126):
`std::replace(name.begin(), name.end(), '"', '\'')`. -/
def sanitize_name (name : List Char) : List Char :=
  name.map (fun c => if c = '"' then '\'' else c)

/-- The document header written by `instrumentor::write_header` (line 141). -/
def headerStr : List Char :=
  "\x7b\"otherData\": \x7b\x7d,\"traceEvents\":[".data

/-- The document footer written by `instrumentor::write_footer` (line 147). -/
def footerStr : List Char :=
  "]\x7d".data

/-- The JSON object `instrumentor::write_profile` emits for one event
(lines 125-134). -/
def profile_json (result : profile_result) : List Char :=
  "\x7b\"cat\":\"function\",".data
    ++ "\"dur\":".data ++ (toString (result.end_ - result.start)).data ++ [',']
    ++ "\"name\":\"".data ++ sanitize_name result.name ++ "\",".data
    ++ "\"ph\":\"X\",".data
    ++ "\"pid\":0,".data
    ++ "\"tid\":".data ++ (toString result.threadID).data ++ ",".data
    ++ "\"ts\":".data ++ (toString result.start).data ++ "\x7d".data

/-- State of `coco::instrumentor` (src/coco.h lines 97-162): the session
pointer (its name when allocated), the output stream, the event count and the
active flag. -/
structure instrumentor where
  m_current_session : Option String
  m_output_stream : ofstream
  m_profile_count : Nat
  m_active : Bool
deriving DecidableEq, Repr

/-- The constructor (line 100): no session, default stream, count 0,
inactive. -/
def instrumentor.init : instrumentor :=
  { m_current_session := none, m_output_stream := ⟨false, false, []⟩,
    m_profile_count := 0, m_active := false }

/-- `instrumentor::write_header` (lines 139-143). -/
def instrumentor.write_header (s : instrumentor) : instrumentor :=
  { s with m_output_stream := s.m_output_stream.write headerStr }

/-- `instrumentor::write_footer` (lines 145-149). -/
def instrumentor.write_footer (s : instrumentor) : instrumentor :=
  { s with m_output_stream := s.m_output_stream.write footerStr }

/-- `instrumentor::begin_session` (lines 102-108): open the stream, write the
header, allocate the session, set the active flag.  The event count is not
touched. -/
def instrumentor.begin_session (s : instrumentor) (name : String) : instrumentor :=
  let s1 := { s with m_output_stream := s.m_output_stream.open_file }
  let s2 := s1.write_header
  { s2 with m_current_session := some name, m_active := true }

/-- `instrumentor::end_session` (lines 110-118): write the footer, close the
stream, free the session, reset the event count to 0, clear the active
flag. -/
def instrumentor.end_session (s : instrumentor) : instrumentor :=
  let s1 := s.write_footer
  { s1 with
      m_output_stream := s1.m_output_stream.close,
      m_current_session := none, m_profile_count := 0, m_active := false }

/-- `instrumentor::write_profile` (lines 120-137): a comma first when the
post-incremented count was positive, then the serialized event.  Neither the
session pointer nor the active flag is consulted. -/
def instrumentor.write_profile (s : instrumentor) (result : profile_result) : instrumentor :=
  let st := if 0 < s.m_profile_count then s.m_output_stream.write [','] else s.m_output_stream
  { s with
      m_output_stream := st.write (profile_json result),
      m_profile_count := s.m_profile_count + 1 }

/-- One full session: `begin_session`, N `write_profile` calls, `end_session`. -/
def instrumentor.run_session (s : instrumentor) (name : String)
    (events : List profile_result) : instrumentor :=
  (events.foldl instrumentor.write_profile (s.begin_session name)).end_session

/-- The serialized events with a comma before every one except the first. -/
def joined_events (events : List profile_result) : List Char :=
  match events with
  | [] => []
  | e :: rest => profile_json e ++ (rest.map (fun r => ',' :: profile_json r)).flatten

/-- Writing never changes whether the stream is open. -/
theorem ofstream.write_is_open (f : ofstream) (s : List Char) :
    (f.write s).is_open = f.is_open := by
  unfold ofstream.write
  split <;> rfl

/-- A `write_profile` on an open, error-free stream with a positive count
appends a comma and the event, keeps the stream good, and increments the
count. -/
theorem write_profile_good_pos (t : instrumentor) (r : profile_result)
    (ho : t.m_output_stream.is_open = true) (hf : t.m_output_stream.fail = false)
    (hc : 0 < t.m_profile_count) :
    (t.write_profile r).m_output_stream.content
        = t.m_output_stream.content ++ (',' :: profile_json r)
      ∧ (t.write_profile r).m_output_stream.is_open = true
      ∧ (t.write_profile r).m_output_stream.fail = false
      ∧ (t.write_profile r).m_profile_count = t.m_profile_count + 1 := by
  simp [instrumentor.write_profile, ofstream.write, ho, hf, hc, List.append_assoc]

/-- The first `write_profile` (count 0) on an open, error-free stream appends
just the event. -/
theorem write_profile_good_zero (t : instrumentor) (r : profile_result)
    (ho : t.m_output_stream.is_open = true) (hf : t.m_output_stream.fail = false)
    (hc : t.m_profile_count = 0) :
    (t.write_profile r).m_output_stream.content
        = t.m_output_stream.content ++ profile_json r
      ∧ (t.write_profile r).m_output_stream.is_open = true
      ∧ (t.write_profile r).m_output_stream.fail = false
      ∧ (t.write_profile r).m_profile_count = 1 := by
  simp [instrumentor.write_profile, ofstream.write, ho, hf, hc]

/-- Folding `write_profile` from a positive count writes `",<event>"` for
every event. -/
theorem foldl_write_profile_pos (events : List profile_result) :
    ∀ (t : instrumentor), t.m_output_stream.is_open = true →
      t.m_output_stream.fail = false → 0 < t.m_profile_count →
      (events.foldl instrumentor.write_profile t).m_output_stream.content
          = t.m_output_stream.content
            ++ (events.map (fun r => ',' :: profile_json r)).flatten
        ∧ (events.foldl instrumentor.write_profile t).m_output_stream.is_open = true
        ∧ (events.foldl instrumentor.write_profile t).m_output_stream.fail = false
        ∧ (events.foldl instrumentor.write_profile t).m_profile_count
            = t.m_profile_count + events.length := by
  induction events with
  | nil =>
    intro t ho hf hc
    exact ⟨by simp, ho, hf, rfl⟩
  | cons e rest ih =>
    intro t ho hf hc
    obtain ⟨h1, h2, h3, h4⟩ := write_profile_good_pos t e ho hf hc
    obtain ⟨g1, g2, g3, g4⟩ := ih (t.write_profile e) h2 h3 (by omega)
    refine ⟨?_, g2, g3, by simp [g4, h4]; omega⟩
    rw [List.foldl_cons] at *
    rw [g1, h1]
    simp [List.append_assoc]

/-- `begin_session` on a closed stream truncates the file to just the header,
leaves the stream good, and does not touch the count. -/
theorem begin_session_closed (s : instrumentor) (name : String)
    (hclosed : s.m_output_stream.is_open = false) :
    (s.begin_session name).m_output_stream.content = headerStr
      ∧ (s.begin_session name).m_output_stream.is_open = true
      ∧ (s.begin_session name).m_output_stream.fail = false
      ∧ (s.begin_session name).m_profile_count = s.m_profile_count := by
  simp [instrumentor.begin_session, instrumentor.write_header, ofstream.open_file,
    ofstream.write, hclosed]

/-- `end_session` on an open, error-free stream appends the footer, closes the
stream (keeping the file content) and resets the count. -/
theorem end_session_good (t : instrumentor)
    (ho : t.m_output_stream.is_open = true) (hf : t.m_output_stream.fail = false) :
    t.end_session.m_output_stream.content = t.m_output_stream.content ++ footerStr
      ∧ t.end_session.m_profile_count = 0 := by
  simp [instrumentor.end_session, instrumentor.write_footer, ofstream.close,
    ofstream.write, ho, hf]

/-- C3: a session run from a state with event count 0 and a closed stream
(fresh instrumentor, or one properly terminated by `end_session`) produces
exactly `header ++ events-with-a-comma-before-each-but-the-first ++ footer` —
the well-formed JSON document whose `traceEvents` array holds the N written
objects — and ends with the count reset to 0. -/
theorem c3_session_output (s : instrumentor) (name : String)
    (events : List profile_result)
    (hcount : s.m_profile_count = 0)
    (hclosed : s.m_output_stream.is_open = false) :
    (s.run_session name events).m_output_stream.content
        = headerStr ++ joined_events events ++ footerStr
    ∧ (s.run_session name events).m_profile_count = 0 := by
  obtain ⟨b1, b2, b3, b4⟩ := begin_session_closed s name hclosed
  unfold instrumentor.run_session
  cases events with
  | nil =>
    obtain ⟨e1, e2⟩ := end_session_good (s.begin_session name) b2 b3
    rw [List.foldl_nil]
    refine ⟨?_, e2⟩
    rw [e1, b1]
    simp [joined_events]
  | cons e rest =>
    obtain ⟨h1, h2, h3, h4⟩ :=
      write_profile_good_zero (s.begin_session name) e b2 b3 (by omega)
    obtain ⟨g1, g2, g3, g4⟩ :=
      foldl_write_profile_pos rest ((s.begin_session name).write_profile e) h2 h3 (by omega)
    obtain ⟨e1, e2⟩ :=
      end_session_good (rest.foldl instrumentor.write_profile
        ((s.begin_session name).write_profile e)) g2 g3
    rw [List.foldl_cons]
    refine ⟨?_, e2⟩
    rw [e1, g1, h1, b1]
    simp [joined_events, List.append_assoc]

/-- Witness for C3: a fresh instrumentor, session "s", three events — the
spec's round-trip example. -/
theorem c3_session_output_witness :
    (instrumentor.init.run_session "s"
        [⟨"a".data, 0, 5, 1⟩, ⟨"b".data, 5, 9, 1⟩, ⟨"c".data, 9, 12, 2⟩]).m_output_stream.content
        = headerStr
          ++ joined_events [⟨"a".data, 0, 5, 1⟩, ⟨"b".data, 5, 9, 1⟩, ⟨"c".data, 9, 12, 2⟩]
          ++ footerStr
    ∧ (instrumentor.init.run_session "s"
        [⟨"a".data, 0, 5, 1⟩, ⟨"b".data, 5, 9, 1⟩, ⟨"c".data, 9, 12, 2⟩]).m_profile_count = 0 :=
  c3_session_output instrumentor.init "s"
    [⟨"a".data, 0, 5, 1⟩, ⟨"b".data, 5, 9, 1⟩, ⟨"c".data, 9, 12, 2⟩] rfl rfl

/-- The serialized bytes before the name field's value: everything of the
event object up to and including `"name":"`. -/
def profile_json_name_prefix (result : profile_result) : List Char :=
  "\x7b\"cat\":\"function\",".data
    ++ "\"dur\":".data ++ (toString (result.end_ - result.start)).data ++ [',']
    ++ "\"name\":\"".data

/-- The serialized bytes after the name field's value. -/
def profile_json_name_suffix (result : profile_result) : List Char :=
  "\",".data
    ++ "\"ph\":\"X\",".data
    ++ "\"pid\":0,".data
    ++ "\"tid\":".data ++ (toString result.threadID).data ++ ",".data
    ++ "\"ts\":".data ++ (toString result.start).data ++ "\x7d".data

/-- C6: the serialized name field is the input name with every double quote
replaced by a single quote and nothing else altered — the sanitized name has
the same length, its i-th character is the i-th input character unless that
was `"` (then it is `'`), it is exactly what sits between the fixed name-field
delimiters in the emitted object, and the spec's example holds. -/
theorem c6_name_sanitization (r : profile_result) :
    (sanitize_name r.name).length = r.name.length
    ∧ (∀ i : Nat, (sanitize_name r.name)[i]?
        = (r.name[i]?).map (fun c => if c = '"' then '\'' else c))
    ∧ profile_json r
        = profile_json_name_prefix r ++ sanitize_name r.name
          ++ profile_json_name_suffix r
    ∧ sanitize_name ("say \"hi\"".data) = ("say \'hi\'").data := by
  refine ⟨List.length_map _ _, ?_, ?_, by decide⟩
  · intro i
    simp [sanitize_name, List.getElem?_map]
  · simp [profile_json, profile_json_name_prefix, profile_json_name_suffix,
      List.append_assoc]

/-- C10: the event counter is incremented by every `write_profile`, session
open or not; `begin_session` leaves it alone and only `end_session` resets it;
hence after an out-of-session `write_profile` the first event of the next
session is preceded by a comma. -/
theorem c10_profile_count_semantics (s : instrumentor) (r e : profile_result)
    (name : String) :
    (s.write_profile r).m_profile_count = s.m_profile_count + 1
    ∧ (s.begin_session name).m_profile_count = s.m_profile_count
    ∧ s.end_session.m_profile_count = 0
    ∧ (s.m_output_stream.is_open = false →
        (((s.write_profile r).begin_session name).write_profile e).m_output_stream.content
          = headerStr ++ (',' :: profile_json e)) := by
  refine ⟨rfl, rfl, rfl, ?_⟩
  intro hclosed
  have hclosed' : (s.write_profile r).m_output_stream.is_open = false := by
    simp only [instrumentor.write_profile]
    rw [ofstream.write_is_open]
    by_cases h0 : 0 < s.m_profile_count
    · simp [h0, ofstream.write_is_open, hclosed]
    · simp [h0, hclosed]
  obtain ⟨b1, b2, b3, b4⟩ := begin_session_closed (s.write_profile r) name hclosed'
  obtain ⟨h1, h2, h3, h4⟩ :=
    write_profile_good_pos ((s.write_profile r).begin_session name) e b2 b3
      (by rw [b4]; simp [instrumentor.write_profile])
  rw [h1, b1]

/-- Witness for C10: a fresh instrumentor, one out-of-session write, then a
session whose first event is comma-prefixed. -/
theorem c10_profile_count_witness :
    (instrumentor.init.write_profile ⟨"x".data, 0, 1, 1⟩).m_profile_count
        = instrumentor.init.m_profile_count + 1
    ∧ (instrumentor.init.begin_session "s2").m_profile_count
        = instrumentor.init.m_profile_count
    ∧ instrumentor.init.end_session.m_profile_count = 0
    ∧ (((instrumentor.init.write_profile ⟨"x".data, 0, 1, 1⟩).begin_session
          "s2").write_profile ⟨"y".data, 1, 2, 1⟩).m_output_stream.content
        = headerStr ++ (',' :: profile_json ⟨"y".data, 1, 2, 1⟩) :=
  ⟨(c10_profile_count_semantics instrumentor.init ⟨"x".data, 0, 1, 1⟩
      ⟨"y".data, 1, 2, 1⟩ "s2").1,
   (c10_profile_count_semantics instrumentor.init ⟨"x".data, 0, 1, 1⟩
      ⟨"y".data, 1, 2, 1⟩ "s2").2.1,
   (c10_profile_count_semantics instrumentor.init ⟨"x".data, 0, 1, 1⟩
      ⟨"y".data, 1, 2, 1⟩ "s2").2.2.1,
   (c10_profile_count_semantics instrumentor.init ⟨"x".data, 0, 1, 1⟩
      ⟨"y".data, 1, 2, 1⟩ "s2").2.2.2 rfl⟩
